import Mathlib

/-!
Verification development for the allow2automate-web-browsers plugin core.

The JavaScript source is shallowly embedded: each class's mutable fields
become a Lean structure, and each method becomes a pure function from the
old state (plus the inputs the method reads, such as Date.now() and the
result of the external Allow2 API call) to the new state together with the
list of events it emits and the list of API requests it issues.
JS Map objects are embedded as insertion-ordered association lists with
unique keys (a JS Map can never hold a duplicate key).
-/

namespace Allow2Web

/-! ## JS Map model: insertion-ordered association list, string keys -/

/-- Map.get(k): the value stored at the first binding for k, if any. -/
def jget {α : Type} (m : List (String × α)) (k : String) : Option α :=
  match m with
  | [] => none
  | p :: rest => if p.1 == k then some p.2 else jget rest k

/-- Map.set(k, v): update the existing binding in place (JS Maps keep the
original insertion position on update), else append a new binding. -/
def jset {α : Type} (m : List (String × α)) (k : String) (v : α) :
    List (String × α) :=
  match m with
  | [] => [(k, v)]
  | p :: rest => if p.1 == k then (k, v) :: rest else p :: jset rest k v

/-- Map.delete(k): remove the binding for k. -/
def jdel {α : Type} (m : List (String × α)) (k : String) : List (String × α) :=
  m.filter (fun p => !(p.1 == k))

/-- Map.has(k). -/
def jhas {α : Type} (m : List (String × α)) (k : String) : Bool :=
  (jget m k).isSome

theorem jget_jset_self {α : Type} (m : List (String × α)) (k : String) (v : α) :
    jget (jset m k v) k = some v := by
  induction m with
  | nil => simp [jget, jset]
  | cons p rest ih =>
    by_cases hp : (p.1 == k) = true
    · simp [jget, jset, hp]
    · simp [jget, jset, hp, ih]

theorem jget_jset_other {α : Type} (m : List (String × α)) {k k' : String}
    (v : α) (hne : k' ≠ k) : jget (jset m k v) k' = jget m k' := by
  have hkk' : (k == k') = false := by
    simp only [beq_eq_false_iff_ne, ne_eq]
    exact fun hc => hne hc.symm
  induction m with
  | nil => simp [jget, jset, hkk']
  | cons p rest ih =>
    by_cases hp : (p.1 == k) = true
    · have hp1 : (p.1 == k') = false := by
        have : p.1 = k := by simpa using hp
        simpa [this] using hkk'
      simp [jget, jset, hp, hkk', hp1]
    · simp only [jset, hp, if_false, jget]
      by_cases hp' : (p.1 == k') = true
      · simp [hp']
      · simp [hp', ih]

theorem jset_of_jget_none {α : Type} {m : List (String × α)} {k : String}
    (v : α) (h : jget m k = none) : jset m k v = m ++ [(k, v)] := by
  induction m with
  | nil => simp [jset]
  | cons p rest ih =>
    by_cases hp : (p.1 == k) = true
    · simp [jget, hp] at h
    · simp only [jget, hp, if_false] at h
      simp [jset, hp, ih h]

theorem jset_keys_of_jget_isSome {α : Type} {m : List (String × α)}
    {k : String} (v : α) (h : (jget m k).isSome = true) :
    (jset m k v).map Prod.fst = m.map Prod.fst := by
  induction m with
  | nil => simp [jget] at h
  | cons p rest ih =>
    by_cases hp : (p.1 == k) = true
    · have : p.1 = k := by simpa using hp
      simp [jset, hp, this]
    · simp only [jget, hp, if_false] at h
      simp [jset, hp, ih h]

theorem jget_eq_some_iff_mem {α : Type} {m : List (String × α)}
    (hnd : (m.map Prod.fst).Nodup) {k : String} {v : α} :
    jget m k = some v ↔ (k, v) ∈ m := by
  induction m with
  | nil => simp [jget]
  | cons p rest ih =>
    simp only [List.map_cons, List.nodup_cons] at hnd
    obtain ⟨hnotin, hnd'⟩ := hnd
    by_cases hp : (p.1 == k) = true
    · have hpk : p.1 = k := by simpa using hp
      simp only [jget, hp, if_true, List.mem_cons]
      constructor
      · rintro h
        left
        cases p with
        | mk a b =>
          simp only at hpk
          simp only [Option.some_inj] at h
          simp [hpk, h]
      · rintro (h | h)
        · cases p with
          | mk a b => simp_all
        · exfalso
          apply hnotin
          rw [hpk]
          exact List.mem_map_of_mem Prod.fst h
    · have hpk : p.1 ≠ k := by simpa using hp
      have hg : jget (p :: rest) k = jget rest k := by simp [jget, hp]
      rw [hg, List.mem_cons, ih hnd']
      constructor
      · intro h; right; exact h
      · rintro (h | h)
        · exfalso
          apply hpk
          rw [show p = (k, v) from h.symm]
        · exact h

/-! ## External quota authority interface (Allow2 API)

allow2Client.checkActivity(...) request payloads and results, from
QuotaEnforcer.fetchAllowance, BrowserTimeTracker.checkAllowance and
BrowserTimeTracker.logUsageToAllow2. -/

/-- Result object of allow2Client.checkActivity. remaining_seconds = -1
means unlimited. -/
structure Allowance where
  allowed : Bool
  is_banned : Bool
  is_activity_blocked : Bool
  remaining_seconds : Int
  ban_reason : Option String
  deriving Repr, DecidableEq

/-- Argument object passed to allow2Client.checkActivity. Fields that a
given call site does not supply are none. -/
structure CheckActivityRequest where
  child_id : String
  activity_type : String
  duration_seconds : Option Int
  log_usage : Bool
  check_only : Option Bool
  deriving Repr, DecidableEq

/-- Outcome of one awaited allow2Client.checkActivity call: either the
promise rejects (error) or resolves, possibly to a null/undefined value. -/
def ApiCall : Type := Except Unit (Option Allowance)

/-! ## QuotaEnforcer (src/src/parent/QuotaEnforcer.js)

Mutable fields: warningStates (childId -> object of warned-threshold
flags, embedded as the list of threshold values whose flag is true) and
quotaCache (cache key -> {allowance, timestamp}).  checkQuota emits
block-browsers / show-warning events. -/

/-- One entry of this.quotaCache. The cached allowance may itself be the
null result of a resolved call. -/
structure CacheEntry where
  allowance : Option Allowance
  timestamp : Int
  deriving Repr, DecidableEq

/-- this.cacheTTL = 5000 (milliseconds). -/
def cacheTTL : Int := 5000

/-- QuotaEnforcer mutable state. -/
structure EnforcerState where
  warningStates : List (String × List Int)
  quotaCache : List (String × CacheEntry)
  deriving Repr, DecidableEq

/-- Events emitted by QuotaEnforcer (this.emit(...)). The show-warning
payload field remaining is remainingSeconds / 60 computed exactly. -/
inductive QuotaEvent where
  | blockBrowsers (agentId childId reason : String)
  | showWarning (agentId childId : String) (remaining : ℚ)
      (activityType : String) (urgency : String)
  deriving Repr, DecidableEq

/-- Whether an event is a show-warning event. -/
def QuotaEvent.isShowWarning : QuotaEvent → Bool
  | .showWarning _ _ _ _ _ => true
  | .blockBrowsers _ _ _ => false

/-- allowance.ban_reason || 'Activity is blocked' (JS: null, undefined and
the empty string are all falsy). -/
def banReasonOf (a : Allowance) : String :=
  match a.ban_reason with
  | some r => if r = "" then "Activity is blocked" else r
  | none => "Activity is blocked"

/-- Insert x into an already descending list, keeping it descending. -/
def insertDesc (x : Int) : List Int → List Int
  | [] => [x]
  | y :: ys => if y ≤ x then x :: y :: ys else y :: insertDesc x ys

/-- warningMinutes.sort((a, b) => b - a): numeric sort, descending. -/
def sortDesc : List Int → List Int
  | [] => []
  | x :: xs => insertDesc x (sortDesc xs)

/-- Urgency escalation: threshold <= 1 -> critical, <= 5 -> high,
else normal. -/
def urgencyFor (threshold : Int) : String :=
  if threshold ≤ 1 then "critical" else if threshold ≤ 5 then "high" else "normal"

/-- getWarningState(childId) read view: missing entry behaves as the
freshly-inserted empty flag object. -/
def flagsOf (ws : List (String × List Int)) (childId : String) : List Int :=
  (jget ws childId).getD []

/-- getWarningState(childId) ensure-present effect: inserts an empty flag
object for childId when none exists. -/
def ensureFlags (ws : List (String × List Int)) (childId : String) :
    List (String × List Int) :=
  if jhas ws childId then ws else jset ws childId []

/-- The for-loop over sorted thresholds of checkQuota (lines 134-157):
on the first threshold with remainingMinutes <= threshold whose warned
flag is unset, emit one show-warning, set the flag and break. The guard
remainingMinutes <= threshold is stated division-free: for an integer
second count, remainingSeconds / 60 <= threshold holds exactly when
remainingSeconds <= 60 * threshold (div60_le_iff below proves the
equivalence with the exact rational comparison). -/
def warnLoop (agentId childId activityType : String) (remainingSeconds : Int)
    (flags : List Int) : List Int → List QuotaEvent × List Int
  | [] => ([], flags)
  | t :: rest =>
    if remainingSeconds ≤ 60 * t ∧ flags.contains t = false then
      ([.showWarning agentId childId ((remainingSeconds : ℚ) / 60)
          activityType (urgencyFor t)], t :: flags)
    else
      warnLoop agentId childId activityType remainingSeconds flags rest

/-- The first threshold of the list that the loop fires on (derived view
of warnLoop used to state theorems). -/
def firstFire (remainingSeconds : Int) (flags : List Int) :
    List Int → Option Int
  | [] => none
  | t :: rest =>
    if remainingSeconds ≤ 60 * t ∧ flags.contains t = false then
      some t
    else
      firstFire remainingSeconds flags rest

/-- checkQuota decision body (lines 87-157): everything after the
allowance has been obtained. Takes and returns the whole warningStates
map; warningMinutes is this.state.settings?.warningMinutes with the
|| [15, 5, 1] default applied for a missing setting. -/
def checkQuotaDecision (agentId childId activityType : String)
    (allowance? : Option Allowance) (warningMinutes? : Option (List Int))
    (ws : List (String × List Int)) :
    List QuotaEvent × List (String × List Int) :=
  match allowance? with
  | none => ([], ws)
  | some a =>
    if a.is_banned || a.is_activity_blocked then
      ([.blockBrowsers agentId childId (banReasonOf a)], ws)
    else if !a.allowed then
      ([.blockBrowsers agentId childId "Internet time not allowed"], ws)
    else if a.remaining_seconds = -1 then
      ([], ws)
    else if a.remaining_seconds ≤ 0 then
      ([.blockBrowsers agentId childId "Daily internet time exhausted"], ws)
    else
      let warningMinutes := warningMinutes?.getD [15, 5, 1]
      let ws₁ := ensureFlags ws childId
      let flags := flagsOf ws₁ childId
      let wl :=
        warnLoop agentId childId activityType a.remaining_seconds flags
          (sortDesc warningMinutes)
      (wl.1, jset ws₁ childId wl.2)

/-- this.quotaCache key: childId : activityType template string. -/
def cacheKey (childId activityType : String) : String :=
  childId ++ ":" ++ activityType

/-- fetchAllowance (lines 164-192): serve a fresh (< 5 s old) cached
entry without an API call, otherwise issue the check-only request; a
resolved call (even a null result) is cached, a rejected call yields
null and leaves the cache untouched. Returns (allowance, new cache,
requests issued). -/
def fetchAllowance (now : Int) (childId activityType : String)
    (cache : List (String × CacheEntry)) (call : ApiCall) :
    Option Allowance × List (String × CacheEntry) × List CheckActivityRequest :=
  let key := cacheKey childId activityType
  let doCall : Option Allowance × List (String × CacheEntry) ×
      List CheckActivityRequest :=
    let req : CheckActivityRequest :=
      { child_id := childId
        activity_type := activityType
        duration_seconds := none
        log_usage := false
        check_only := some true }
    match call with
    | .ok a => (a, jset cache key { allowance := a, timestamp := now }, [req])
    | .error _ => (none, cache, [req])
  match jget cache key with
  | some c => if now - c.timestamp < cacheTTL then (c.allowance, cache, []) else doCall
  | none => doCall

/-- checkQuota(agentId, childId, activityType) (lines 73-158): guard on a
missing allow2Client, fetch the allowance and run the decision body.
Returns (events emitted, new state, API requests issued). -/
def checkQuota (hasClient : Bool) (now : Int)
    (agentId childId activityType : String)
    (warningMinutes? : Option (List Int)) (call : ApiCall)
    (st : EnforcerState) :
    List QuotaEvent × EnforcerState × List CheckActivityRequest :=
  if !hasClient then ([], st, [])
  else
    let fa := fetchAllowance now childId activityType st.quotaCache call
    let dec :=
      checkQuotaDecision agentId childId activityType fa.1
        warningMinutes? st.warningStates
    (dec.1, { warningStates := dec.2, quotaCache := fa.2.1 }, fa.2.2)

/-- resetWarningState(childId) (lines 207-209): delete the child's
warning flags. -/
def resetWarningState (st : EnforcerState) (childId : String) : EnforcerState :=
  { st with warningStates := jdel st.warningStates childId }

/-- A sequence of checkQuota calls for one (agent, child, activity),
each with its own Date.now() and authority outcome, threading the
enforcer state. Returns the per-call event lists and the final state. -/
def runChecks (hasClient : Bool) (agentId childId activityType : String)
    (warningMinutes? : Option (List Int)) :
    List (Int × ApiCall) → EnforcerState →
    List (List QuotaEvent) × EnforcerState
  | [], st => ([], st)
  | (now, call) :: rest, st =>
    let out :=
      checkQuota hasClient now agentId childId activityType warningMinutes?
        call st
    let outRest :=
      runChecks hasClient agentId childId activityType warningMinutes? rest
        out.2.1
    (out.1 :: outRest.1, outRest.2)

/-! ## BrowserTimeTracker (src/src/parent/BrowserTimeTracker.js)

Mutable fields: activeSessions (agentId -> session), children usage map
(via this.state.children), logIntervals (agentId -> timer; embedded as
the set of agent ids owning a live flush timer) and the daily-reset
timer flag. -/

/-- One entry of this.activeSessions. -/
structure Session where
  childId : String
  startTime : Int
  lastUpdate : Int
  browsers : List String
  accumulatedSeconds : Int
  logged : Bool
  deriving Repr, DecidableEq

/-- One entry of this.state.children. -/
structure ChildUsage where
  usageToday : Int
  lastReset : Int
  deriving Repr, DecidableEq

/-- BrowserTimeTracker mutable state. -/
structure TrackerState where
  activeSessions : List (String × Session)
  children : List (String × ChildUsage)
  logIntervals : List String
  resetCheckOn : Bool
  deriving Repr, DecidableEq

/-- Events emitted by BrowserTimeTracker. -/
inductive TrackerEvent where
  | sessionStarted (agentId childId : String) (browsers : List String)
      (timestamp : Int)
  | sessionEnded (agentId childId : String) (duration : Int) (timestamp : Int)
  | usageRecorded (childId : String) (duration totalToday : Int)
  | usageLogged (childId : String) (duration : Int)
      (remaining : Option Int) (allowed : Option Bool)
  | dailyReset (childId : String)
  deriving Repr, DecidableEq

/-- Whether an event is a session-started event. -/
def TrackerEvent.isSessionStarted : TrackerEvent → Bool
  | .sessionStarted _ _ _ _ => true
  | _ => false

/-- Math.floor(ms / 1000) on an integer millisecond count (JS floats
floor toward negative infinity). -/
def msToSec (ms : Int) : Int := Int.fdiv ms 1000

/-- updateChildUsage(childId, seconds) (lines 163-178): create the child
record on first use, add to usageToday, emit usage-recorded. -/
def updateChildUsage (now : Int) (children : List (String × ChildUsage))
    (childId : String) (seconds : Int) :
    List (String × ChildUsage) × List TrackerEvent :=
  let child := (jget children childId).getD { usageToday := 0, lastReset := now }
  let child' := { child with usageToday := child.usageToday + seconds }
  (jset children childId child',
   [.usageRecorded childId seconds child'.usageToday])

/-- recordActivity(agentId, childId, browsers) (lines 68-107): update the
existing session for the agent, or open a new one and start its flush
timer. Returns (new state, events emitted). -/
def recordActivity (tr : TrackerState) (now : Int)
    (agentId childId : String) (browsers : List String) :
    TrackerState × List TrackerEvent :=
  match jget tr.activeSessions agentId with
  | some s =>
    let elapsed := now - s.lastUpdate
    let s' := { s with
      lastUpdate := now
      browsers := browsers
      accumulatedSeconds := s.accumulatedSeconds + msToSec elapsed }
    let upd := updateChildUsage now tr.children childId (msToSec elapsed)
    ({ tr with
        activeSessions := jset tr.activeSessions agentId s'
        children := upd.1 },
     upd.2)
  | none =>
    let s : Session :=
      { childId := childId
        startTime := now
        lastUpdate := now
        browsers := browsers
        accumulatedSeconds := 0
        logged := false }
    ({ tr with
        activeSessions := jset tr.activeSessions agentId s
        logIntervals :=
          (tr.logIntervals.filter (fun a => !(a == agentId))) ++ [agentId] },
     [.sessionStarted agentId childId browsers now])

/-- logUsageToAllow2(childId, durationSeconds) (lines 184-216): guard on a
missing client, issue the quota-consuming request, emit usage-logged on a
resolved call; a rejected call emits nothing. Returns (requests issued,
events emitted). -/
def logUsageToAllow2 (hasClient : Bool) (childId : String)
    (durationSeconds : Int) (call : ApiCall) :
    List CheckActivityRequest × List TrackerEvent :=
  if !hasClient then ([], [])
  else
    let req : CheckActivityRequest :=
      { child_id := childId
        activity_type := "internet"
        duration_seconds := some durationSeconds
        log_usage := true
        check_only := none }
    match call with
    | .ok r =>
      ([req],
       [.usageLogged childId durationSeconds
          (r.map (fun a => a.remaining_seconds)) (r.map (fun a => a.allowed))])
    | .error _ => ([req], [])

/-- The body of the periodic flush timer installed by
startLoggingInterval (lines 226-238): skip when the session is gone or
has nothing accumulated; otherwise zero the accumulator and mark the
session logged BEFORE awaiting the usage-logging call, so the reset
happens whether or not the call succeeds. Returns (new state, requests
issued, events emitted). -/
def flushTick (tr : TrackerState) (agentId childId : String)
    (hasClient : Bool) (call : ApiCall) :
    TrackerState × List CheckActivityRequest × List TrackerEvent :=
  match jget tr.activeSessions agentId with
  | none => (tr, [], [])
  | some s =>
    if s.accumulatedSeconds = 0 then (tr, [], [])
    else
      let secondsToLog := s.accumulatedSeconds
      let s' := { s with accumulatedSeconds := 0, logged := true }
      let tr' := { tr with activeSessions := jset tr.activeSessions agentId s' }
      let logOut := logUsageToAllow2 hasClient childId secondsToLog call
      (tr', logOut.1, logOut.2)

/-- endSession(agentId, childId) (lines 115-148): no-op without an open
session; otherwise log the remaining total, update child usage, stop the
flush timer, drop the session and emit session-ended. -/
def endSession (tr : TrackerState) (now : Int) (agentId childId : String)
    (hasClient : Bool) (call : ApiCall) :
    TrackerState × List CheckActivityRequest × List TrackerEvent :=
  match jget tr.activeSessions agentId with
  | none => (tr, [], [])
  | some s =>
    let elapsed := now - s.lastUpdate
    let totalSeconds := s.accumulatedSeconds + msToSec elapsed
    let sessionDuration := msToSec (now - s.startTime)
    let logOut :=
      if 0 < totalSeconds ∧ hasClient then
        logUsageToAllow2 hasClient childId totalSeconds call
      else ([], [])
    let upd := updateChildUsage now tr.children childId (msToSec elapsed)
    ({ tr with
        activeSessions := jdel tr.activeSessions agentId
        children := upd.1
        logIntervals := tr.logIntervals.filter (fun a => !(a == agentId)) },
     logOut.1,
     logOut.2 ++ upd.2 ++ [.sessionEnded agentId childId sessionDuration now])

/-- checkAllowance(childId) (lines 332-350): a check-only request that
never consumes quota; errors resolve to null. -/
def checkAllowance (hasClient : Bool) (childId : String) (call : ApiCall) :
    Option Allowance × List CheckActivityRequest :=
  if !hasClient then (none, [])
  else
    let req : CheckActivityRequest :=
      { child_id := childId
        activity_type := "internet"
        duration_seconds := none
        log_usage := false
        check_only := some true }
    match call with
    | .ok a => (a, [req])
    | .error _ => (none, [req])

/-- Projection of one active session returned by
getChildSessions(childId) (lines 257-270). -/
structure ChildSessionView where
  agentId : String
  startTime : Int
  duration : Int
  browsers : List String
  deriving Repr, DecidableEq

/-- getChildSessions(childId): one view per active session whose childId
matches, in map iteration (insertion) order. -/
def getChildSessions (tr : TrackerState) (now : Int) (childId : String) :
    List ChildSessionView :=
  (tr.activeSessions.filter (fun p => p.2.childId == childId)).map
    (fun p =>
      { agentId := p.1
        startTime := p.2.startTime
        duration := msToSec (now - p.2.startTime)
        browsers := p.2.browsers })

/-- cleanup() (lines 355-369): stop every flush timer, stop the daily
reset timer and clear the session map. No usage is flushed and no
session-ended events are emitted. -/
def cleanup (tr : TrackerState) :
    TrackerState × List CheckActivityRequest × List TrackerEvent :=
  ({ tr with logIntervals := [], resetCheckOn := false, activeSessions := [] },
   [], [])

/-! ## WebsiteClassifier (src/src/classifiers; file also present among the
unnamed sources) and its CategoryPatterns tables -/

/-- Whether needle occurs as a contiguous run starting at some suffix. -/
def containsSeq (needle : List Char) : List Char → Bool
  | [] => needle.isPrefixOf []
  | c :: cs => needle.isPrefixOf (c :: cs) || containsSeq needle cs

/-- JS String.prototype.includes: contiguous substring test. -/
def strIncludes (hay needle : String) : Bool :=
  containsSeq needle.data hay.data

/-- JS String.prototype.toLowerCase (ASCII-relevant part). -/
def toLowerStr (s : String) : String := ⟨s.data.map Char.toLower⟩

/-- JS String.prototype.trim: strip leading and trailing whitespace. -/
def trimStr (s : String) : String :=
  ⟨((s.data.dropWhile Char.isWhitespace).reverse.dropWhile
      Char.isWhitespace).reverse⟩

/-- JS String.prototype.startsWith. -/
def startsWithStr (s pre : String) : Bool := pre.data.isPrefixOf s.data

/-- JS String.prototype.endsWith. -/
def endsWithStr (s suf : String) : Bool := suf.data.isSuffixOf s.data

/-- JS String.prototype.substring(n) for ASCII strings. -/
def dropChars (s : String) (n : Nat) : String := ⟨s.data.drop n⟩

/-- JS s.split(sep)[0]: the characters before the first separator. -/
def takeBefore (sep : Char) (s : String) : String :=
  ⟨s.data.takeWhile (fun c => !(c == sep))⟩

/-- JS String.prototype.split on a single-character separator. -/
def splitChar (sep : Char) : List Char → List (List Char)
  | [] => [[]]
  | c :: cs =>
    if c == sep then [] :: splitChar sep cs
    else
      match splitChar sep cs with
      | [] => [[c]]
      | hd :: tl => (c :: hd) :: tl

/-- Array.prototype.join on a single-character separator. -/
def joinChar (sep : Char) : List (List Char) → List Char
  | [] => []
  | [x] => x
  | x :: xs => x ++ sep :: joinChar sep xs

/-- CategoryPatterns.getPatterns() display metadata: category id ->
(displayName, icon). -/
def categoryDisplay : List (String × (String × String)) :=
  [("social", ("Social Media", "people")),
   ("video", ("Video Streaming", "play_circle")),
   ("gaming", ("Gaming", "sports_esports")),
   ("education", ("Education", "school")),
   ("news", ("News", "article")),
   ("shopping", ("Shopping", "shopping_cart")),
   ("productivity", ("Productivity", "work")),
   ("music", ("Music", "music_note")),
   ("sports", ("Sports", "sports")),
   ("search", ("Search Engines", "search")),
   ("adult", ("Adult Content", "block"))]

/-- JS categoryId.charAt(0).toUpperCase() + categoryId.slice(1). -/
def capitalizeStr (s : String) : String :=
  match s.data with
  | [] => ⟨[]⟩
  | c :: cs => ⟨Char.toUpper c :: cs⟩

/-- CategoryPatterns.getCategoryInfo(categoryId), reduced to the fields
createResult reads: unknown categories fall back to the capitalized id
with the generic web icon. -/
def getCategoryInfo (categoryId : String) : String × String :=
  match jget categoryDisplay categoryId with
  | some info => info
  | none => (capitalizeStr categoryId, "web")

/-- CategoryPatterns.isRestricted(categoryId). -/
def isRestricted (categoryId : String) : Bool :=
  ["adult", "gambling"].contains categoryId

/-- ClassificationResult object built by createResult. -/
structure ClassResult where
  category : String
  displayName : String
  icon : String
  confidence : ℚ
  isRestricted : Bool
  deriving Repr, DecidableEq

/-- createResult(category, confidence) (lines 199-208 of the classifier). -/
def createResult (category : String) (confidence : ℚ) : ClassResult :=
  { category := category
    displayName := (getCategoryInfo category).1
    icon := (getCategoryInfo category).2
    confidence := confidence
    isRestricted := isRestricted category }

/-- WebsiteClassifier mutable state. domainCategoryMap is initialized in
the constructor from CategoryPatterns.getDomainCategoryMap(); the claims
quantify over its contents. -/
structure Classifier where
  domainCategoryMap : List (String × String)
  customRules : List (String × String)
  cache : List (String × ClassResult)
  deriving Repr, DecidableEq

/-- this.cacheMaxSize = 1000. -/
def cacheMaxSize : Nat := 1000

/-- Strip the optional scheme of the ^(https?:\/\/)? regex group. -/
def stripHttpScheme (s : String) : String :=
  if startsWithStr s "https://" then dropChars s 8
  else if startsWithStr s "http://" then dropChars s 7
  else s

/-- Strip a leading www. (regex group (www\.)? / startsWith check). -/
def stripWww (s : String) : String :=
  if startsWithStr s "www." then dropChars s 4 else s

/-- extractDomain(urlOrDomain) (lines 92-118). urlParse models the host
environment's WHATWG URL parser, returning the hostname or failing; it is
consulted only for inputs containing "://". The empty string models the
falsy null/'' results (every caller only tests the result for truthiness
or uses it as a map key). -/
def extractDomain (urlParse : String → Option String) (urlOrDomain : String) :
    String :=
  if strIncludes urlOrDomain "://" then
    match urlParse urlOrDomain with
    | some host => toLowerStr host
    | none =>
      -- catch branch: manual cleanup
      let d := stripWww (stripHttpScheme (trimStr (toLowerStr urlOrDomain)))
      takeBefore '?' (takeBefore '/' d)
  else
    let d := trimStr (toLowerStr urlOrDomain)
    let d := if startsWithStr d "www." then dropChars d 4 else d
    takeBefore '/' d

/-- getParentDomain(domain) (lines 125-131): drop the leftmost label when
there are more than two labels. -/
def getParentDomain (domain : String) : Option String :=
  let parts := splitChar '.' domain.data
  if 2 < parts.length then some ⟨joinChar '.' (parts.drop 1)⟩
  else none

/-- matchDomain(domain) (lines 138-144): exact static-table hit with
confidence 1.0 (a falsy/empty category does not count as a hit). -/
def matchDomain (cl : Classifier) (domain : String) : Option ClassResult :=
  match jget cl.domainCategoryMap domain with
  | some category =>
    if category = "" then none else some (createResult category 1)
  | none => none

/-- matchPattern(domain) (lines 151-191): ordered keyword/suffix
heuristics, first hit wins. -/
def matchPattern (domain : String) : Option ClassResult :=
  if strIncludes domain "game" || strIncludes domain "play" ||
      endsWithStr domain ".gg" || strIncludes domain "arcade" then
    some (createResult "gaming" (7 / 10))
  else if endsWithStr domain ".edu" || strIncludes domain "learn" ||
      strIncludes domain "course" || strIncludes domain "school" ||
      strIncludes domain "academy" then
    some (createResult "education" (7 / 10))
  else if strIncludes domain "news" || strIncludes domain "daily" ||
      strIncludes domain "times" || strIncludes domain "post" ||
      strIncludes domain "herald" || strIncludes domain "tribune" then
    some (createResult "news" (6 / 10))
  else if strIncludes domain "shop" || strIncludes domain "store" ||
      strIncludes domain "buy" || strIncludes domain "market" then
    some (createResult "shopping" (6 / 10))
  else if strIncludes domain "video" || strIncludes domain "stream" ||
      strIncludes domain "watch" || strIncludes domain "tv" then
    some (createResult "video" (6 / 10))
  else if strIncludes domain "social" || strIncludes domain "chat" ||
      strIncludes domain "forum" || strIncludes domain "community" then
    some (createResult "social" (5 / 10))
  else none

/-- addToCache(domain, result) (lines 215-226): evict the 100 oldest
entries in bulk once the cache is full, then store. -/
def addToCache (cache : List (String × ClassResult)) (domain : String)
    (result : ClassResult) : List (String × ClassResult) :=
  let cache := if cacheMaxSize ≤ cache.length then cache.drop 100 else cache
  jset cache domain result

/-- classify(urlOrDomain) (lines 39-85): cache, then custom rules, then
exact static match, then one parent-domain static match, then keyword
heuristics, then the other/0 default. Returns (result, new state). -/
def classify (urlParse : String → Option String) (cl : Classifier)
    (urlOrDomain : String) : ClassResult × Classifier :=
  if urlOrDomain = "" then (createResult "other" 0, cl)
  else
    let domain := extractDomain urlParse urlOrDomain
    if domain = "" then (createResult "other" 0, cl)
    else
      match jget cl.cache domain with
      | some r => (r, cl)
      | none =>
        match jget cl.customRules domain with
        | some cat =>
          let r := createResult cat 1
          (r, { cl with cache := addToCache cl.cache domain r })
        | none =>
          let exact := matchDomain cl domain
          let withParent :=
            match exact with
            | some r => some r
            | none =>
              match getParentDomain domain with
              | some parent => matchDomain cl parent
              | none => none
          let withPattern :=
            match withParent with
            | some r => some r
            | none => matchPattern domain
          let result := withPattern.getD (createResult "other" 0)
          (result, { cl with cache := addToCache cl.cache domain result })

/-- addCustomRule(domain, category) (lines 233-240): store the rule under
the normalized domain and invalidate that domain's cache entry. -/
def addCustomRule (urlParse : String → Option String) (cl : Classifier)
    (domain category : String) : Classifier :=
  let cleanDomain := extractDomain urlParse domain
  if cleanDomain = "" then cl
  else
    { cl with
        customRules := jset cl.customRules cleanDomain category
        cache := jdel cl.cache cleanDomain }

/-- removeCustomRule(domain) (lines 246-252). -/
def removeCustomRule (urlParse : String → Option String) (cl : Classifier)
    (domain : String) : Classifier :=
  let cleanDomain := extractDomain urlParse domain
  if cleanDomain = "" then cl
  else
    { cl with
        customRules := jdel cl.customRules cleanDomain
        cache := jdel cl.cache cleanDomain }

/-! ## ProcessLevelDetector (unnamed source, basic mode detector) -/

/-- Browser info record kept in this.activeBrowsers (pid-keyed). -/
structure BrowserInfo where
  name : String
  displayName : String
  processName : String
  executable : String
  icon : String
  pid : Int
  startTime : Int
  deriving Repr, DecidableEq

/-- ProcessLevelDetector mutable state. -/
structure DetectorState where
  isRunning : Bool
  scanOn : Bool
  activeBrowsers : List (Int × BrowserInfo)
  deriving Repr, DecidableEq

/-- Events emitted by ProcessLevelDetector. -/
inductive DetectorEvent where
  | browserStarted (info : BrowserInfo)
  | browserStopped (info : BrowserInfo) (duration : Int)
  | browsersUpdate (count : Nat) (browsers : List BrowserInfo)
  deriving Repr, DecidableEq

/-- ProcessLevelDetector.stop() (lines 94-117): no-op when not running;
otherwise clear the scan timer, emit browser-stopped with the computed
duration for every active browser (in map order) and clear the map. -/
def ProcessLevelDetector.stop (now : Int) (st : DetectorState) :
    DetectorState × List DetectorEvent :=
  if !st.isRunning then (st, [])
  else
    ({ isRunning := false, scanOn := false, activeBrowsers := [] },
     st.activeBrowsers.map
       (fun p => .browserStopped p.2 (now - p.2.startTime)))

/-! ## Shared lemmas -/

theorem jget_jdel_self {α : Type} (m : List (String × α)) (k : String) :
    jget (jdel m k) k = none := by
  induction m with
  | nil => rfl
  | cons p rest ih =>
    by_cases hp : (p.1 == k) = true
    · simpa [jdel, hp] using ih
    · simpa [jdel, jget, hp] using ih

theorem jget_jdel_other {α : Type} (m : List (String × α)) {k k' : String}
    (hne : k' ≠ k) : jget (jdel m k) k' = jget m k' := by
  induction m with
  | nil => rfl
  | cons p rest ih =>
    by_cases hp : (p.1 == k) = true
    · have hpk : p.1 = k := by simpa using hp
      have : (p.1 == k') = false := by
        simp only [beq_eq_false_iff_ne, ne_eq, hpk]
        exact fun hc => hne hc.symm
      simpa [jdel, jget, hp, this] using ih
    · by_cases hp' : (p.1 == k') = true
      · simp [jdel, jget, hp, hp']
      · simpa [jdel, jget, hp, hp'] using ih

/-- getWarningState never changes any child's visible flags: it only
materializes a missing empty entry. -/
theorem flagsOf_ensureFlags (ws : List (String × List Int))
    (childId c : String) :
    flagsOf (ensureFlags ws childId) c = flagsOf ws c := by
  unfold ensureFlags
  by_cases h : jhas ws childId = true
  · simp [h]
  · simp only [h, Bool.false_eq_true, if_false]
    by_cases hc : c = childId
    · subst hc
      unfold jhas at h
      rw [flagsOf, jget_jset_self]
      cases hjg : jget ws c with
      | none => simp [flagsOf, hjg]
      | some v => rw [hjg] at h; simp at h
    · rw [flagsOf, jget_jset_other _ _ hc, flagsOf]

theorem flagsOf_jset_self (ws : List (String × List Int)) (childId : String)
    (flags : List Int) : flagsOf (jset ws childId flags) childId = flags := by
  rw [flagsOf, jget_jset_self]; rfl

theorem flagsOf_jset_other (ws : List (String × List Int))
    {childId c : String} (flags : List Int) (hne : c ≠ childId) :
    flagsOf (jset ws childId flags) c = flagsOf ws c := by
  rw [flagsOf, jget_jset_other _ _ hne, flagsOf]

/-- The warning loop is exactly a first-fire scan: it either fires on the
first threshold with remaining-minutes below it and an unset flag, or
does nothing. -/
theorem warnLoop_eq_firstFire (agentId childId activityType : String)
    (r : Int) (flags : List Int) (ts : List Int) :
    warnLoop agentId childId activityType r flags ts =
      match firstFire r flags ts with
      | none => ([], flags)
      | some t =>
        ([.showWarning agentId childId ((r : ℚ) / 60) activityType
            (urgencyFor t)], t :: flags) := by
  induction ts with
  | nil => rfl
  | cons t rest ih =>
    simp only [warnLoop, firstFire]
    by_cases h : (r ≤ 60 * t ∧ flags.contains t = false)
    · rw [if_pos h, if_pos h]
    · rw [if_neg h, if_neg h, ih]

/-- The division-free loop guard agrees with the exact rational
remaining-minutes comparison of the source. -/
theorem div60_le_iff (r t : Int) : (r : ℚ) / 60 ≤ (t : ℚ) ↔ r ≤ 60 * t := by
  rw [div_le_iff₀ (by norm_num : (0 : ℚ) < 60), mul_comm]
  exact_mod_cast Iff.rfl

/-- Visible flags after the warning branch stores L for childId: only
the checked child's flags change. -/
theorem flagsOf_set_after_ensure (ws : List (String × List Int))
    (childId c : String) (L : List Int) :
    flagsOf (jset (ensureFlags ws childId) childId L) c =
      if c = childId then L else flagsOf ws c := by
  by_cases hc : c = childId
  · subst hc; rw [if_pos rfl, flagsOf_jset_self]
  · rw [if_neg hc, flagsOf_jset_other _ _ hc, flagsOf_ensureFlags]

/-- A fired threshold satisfies the loop guard and comes from the list. -/
theorem firstFire_some {r : Int} {flags ts : List Int} {t : Int}
    (h : firstFire r flags ts = some t) :
    r ≤ 60 * t ∧ flags.contains t = false ∧ t ∈ ts := by
  induction ts with
  | nil => simp [firstFire] at h
  | cons u rest ih =>
    by_cases hg : (r ≤ 60 * u ∧ flags.contains u = false)
    · rw [firstFire, if_pos hg] at h
      obtain rfl : u = t := by simpa using h
      exact ⟨hg.1, hg.2, List.mem_cons_self u rest⟩
    · rw [firstFire, if_neg hg] at h
      obtain ⟨h1, h2, h3⟩ := ih h
      exact ⟨h1, h2, List.mem_cons_of_mem u h3⟩

/-- Sample allowance with the given remaining seconds (allowed, not
banned, not blocked), used by concrete witnesses and counterexamples. -/
def allowRem (r : Int) : Allowance :=
  { allowed := true
    is_banned := false
    is_activity_blocked := false
    remaining_seconds := r
    ban_reason := none }

/-- Sample banned allowance used by concrete witnesses. -/
def bannedAllow : Allowance :=
  { allowed := true
    is_banned := true
    is_activity_blocked := false
    remaining_seconds := 100
    ban_reason := some "bedtime" }

/-- Empty enforcer state used by concrete witnesses. -/
def emptyEnf : EnforcerState :=
  { warningStates := [], quotaCache := [] }

/-! ## Claim C1 -/

/-- C1 (amended): for every checkQuota call in which the authority
returns an allowance, at most one intent is emitted and the decision
follows this order: banned or activity-blocked emits one block intent
with the authority-provided reason or 'Activity is blocked'; otherwise
not-allowed emits one block intent with reason 'Internet time not
allowed'; otherwise remaining_seconds = -1 emits nothing; otherwise
remaining_seconds <= 0 emits one block intent with reason 'Daily
internet time exhausted'. In every one of these branches the per-child
warning/flag state is left completely unchanged: in particular no
per-child exhausted flag is set (QuotaEnforcer keeps no such flag). -/
theorem c1_decision_order (now : Int) (agentId childId activityType : String)
    (warningMinutes? : Option (List Int)) (call : ApiCall)
    (st : EnforcerState) (a : Allowance)
    (hfetch :
      (fetchAllowance now childId activityType st.quotaCache call).1 = some a) :
    (checkQuota true now agentId childId activityType warningMinutes? call
        st).1.length ≤ 1 ∧
    ((a.is_banned || a.is_activity_blocked) = true →
      (checkQuota true now agentId childId activityType warningMinutes? call
          st).1 = [.blockBrowsers agentId childId (banReasonOf a)] ∧
      (checkQuota true now agentId childId activityType warningMinutes? call
          st).2.1.warningStates = st.warningStates) ∧
    ((a.is_banned || a.is_activity_blocked) = false → a.allowed = false →
      (checkQuota true now agentId childId activityType warningMinutes? call
          st).1 = [.blockBrowsers agentId childId "Internet time not allowed"] ∧
      (checkQuota true now agentId childId activityType warningMinutes? call
          st).2.1.warningStates = st.warningStates) ∧
    ((a.is_banned || a.is_activity_blocked) = false → a.allowed = true →
      a.remaining_seconds = -1 →
      (checkQuota true now agentId childId activityType warningMinutes? call
          st).1 = [] ∧
      (checkQuota true now agentId childId activityType warningMinutes? call
          st).2.1.warningStates = st.warningStates) ∧
    ((a.is_banned || a.is_activity_blocked) = false → a.allowed = true →
      a.remaining_seconds ≠ -1 → a.remaining_seconds ≤ 0 →
      (checkQuota true now agentId childId activityType warningMinutes? call
          st).1 = [.blockBrowsers agentId childId
            "Daily internet time exhausted"] ∧
      (checkQuota true now agentId childId activityType warningMinutes? call
          st).2.1.warningStates = st.warningStates) := by
  have hq :
      checkQuota true now agentId childId activityType warningMinutes? call st
        = ((checkQuotaDecision agentId childId activityType
              (fetchAllowance now childId activityType st.quotaCache call).1
              warningMinutes? st.warningStates).1,
           { warningStates :=
               (checkQuotaDecision agentId childId activityType
                 (fetchAllowance now childId activityType st.quotaCache call).1
                 warningMinutes? st.warningStates).2,
             quotaCache :=
               (fetchAllowance now childId activityType st.quotaCache
                 call).2.1 },
           (fetchAllowance now childId activityType st.quotaCache call).2.2) :=
    rfl
  rw [hq, hfetch]
  refine ⟨?_, ?_, ?_, ?_, ?_⟩
  · simp only [checkQuotaDecision]
    split_ifs with h1 h2 h3 h4
    · simp
    · simp
    · simp
    · simp
    · rw [warnLoop_eq_firstFire]
      cases firstFire a.remaining_seconds
        (flagsOf (ensureFlags st.warningStates childId) childId)
        (sortDesc (warningMinutes?.getD [15, 5, 1])) with
      | none => simp
      | some t => simp
  · intro hban
    simp [checkQuotaDecision, hban]
  · intro hban hallow
    simp [checkQuotaDecision, hban, hallow]
  · intro hban hallow hrem
    simp [checkQuotaDecision, hban, hallow, hrem]
  · intro hban hallow hrem hle
    simp [checkQuotaDecision, hban, hallow, hrem, hle]

/-- C1 counterexample: with an allowance that is allowed but has
remaining_seconds = 0, checkQuota emits the 'Daily internet time
exhausted' block intent yet leaves the enforcer's per-child state
entirely unchanged: the warning-state map stays empty, so no per-child
exhausted flag is set anywhere, contradicting the claim's 'the
per-child exhausted flag is set'. -/
theorem c1_counterexample :
    (checkQuota true 0 "agent1" "child1" "internet" none
        (Except.ok (some (allowRem 0))) emptyEnf).1 =
      [.blockBrowsers "agent1" "child1" "Daily internet time exhausted"] ∧
    (checkQuota true 0 "agent1" "child1" "internet" none
        (Except.ok (some (allowRem 0))) emptyEnf).2.1.warningStates = [] := by
  constructor <;> rfl

/-- C1 witness: the decision-order theorem applied to a banned allowance
at a concrete input. -/
theorem c1_decision_order_witness :
    (checkQuota true 0 "agent1" "child1" "internet" none
        (Except.ok (some bannedAllow)) emptyEnf).1.length ≤ 1 ∧
    (checkQuota true 0 "agent1" "child1" "internet" none
        (Except.ok (some bannedAllow)) emptyEnf).1 =
      [.blockBrowsers "agent1" "child1" "bedtime"] := by
  have h := c1_decision_order 0 "agent1" "child1" "internet" none
    (Except.ok (some bannedAllow)) emptyEnf bannedAllow rfl
  refine ⟨h.1, ?_⟩
  have hb := (h.2.1 rfl).1
  simpa [bannedAllow, banReasonOf] using hb

/-! ## Claim C2 -/

/-- C2: when the cache holds no fresh entry and the authority call throws
(promise rejects) or resolves to no allowance, checkQuota emits neither a
block-browsers nor a show-warning event and leaves the warning-flag state
unchanged: quota checks fail open on authority errors. -/
theorem c2_fail_open (hasClient : Bool) (now : Int)
    (agentId childId activityType : String)
    (warningMinutes? : Option (List Int)) (call : ApiCall)
    (st : EnforcerState)
    (hstale : ∀ c,
      jget st.quotaCache (cacheKey childId activityType) = some c →
      cacheTTL ≤ now - c.timestamp)
    (hcall : call = Except.error () ∨ call = Except.ok none) :
    (checkQuota hasClient now agentId childId activityType warningMinutes?
        call st).1 = [] ∧
    (checkQuota hasClient now agentId childId activityType warningMinutes?
        call st).2.1.warningStates = st.warningStates := by
  cases hasClient with
  | false => exact ⟨rfl, rfl⟩
  | true =>
    have hfa :
        (fetchAllowance now childId activityType st.quotaCache call).1 =
          none := by
      simp only [fetchAllowance]
      cases hjg : jget st.quotaCache (cacheKey childId activityType) with
      | some c =>
        have hge := hstale c hjg
        dsimp only
        rw [if_neg (Int.not_lt.mpr hge)]
        rcases hcall with rfl | rfl <;> rfl
      | none =>
        rcases hcall with rfl | rfl <;> rfl
    have hq :
        checkQuota true now agentId childId activityType warningMinutes? call
            st
          = ((checkQuotaDecision agentId childId activityType
                (fetchAllowance now childId activityType st.quotaCache
                  call).1 warningMinutes? st.warningStates).1,
             { warningStates :=
                 (checkQuotaDecision agentId childId activityType
                   (fetchAllowance now childId activityType st.quotaCache
                     call).1 warningMinutes? st.warningStates).2,
               quotaCache :=
                 (fetchAllowance now childId activityType st.quotaCache
                   call).2.1 },
             (fetchAllowance now childId activityType st.quotaCache
               call).2.2) :=
      rfl
    rw [hq, hfa]
    exact ⟨rfl, rfl⟩

/-- C2 witness: a rejected authority call with an empty cache at a
concrete input. -/
theorem c2_fail_open_witness :
    (checkQuota true 0 "agent1" "child1" "internet" none
        (Except.error ()) emptyEnf).1 = [] ∧
    (checkQuota true 0 "agent1" "child1" "internet" none
        (Except.error ()) emptyEnf).2.1.warningStates =
      emptyEnf.warningStates := by
  exact c2_fail_open true 0 "agent1" "child1" "internet" none
    (Except.error ()) emptyEnf
    (fun c h => by simp [emptyEnf, jget] at h)
    (Or.inl rfl)

/-! ## Claim C3 -/

/-- C3: on every checkQuota call where the authority returns an
allowance that is allowed, not banned, not activity-blocked and has
0 < remaining_seconds, the configured warning thresholds are scanned in
descending sorted order and at most one warning is emitted: exactly the
first sorted threshold with remaining-minutes <= threshold whose flag is
unset fires (urgency critical when the threshold is <= 1, high when
<= 5, else normal), that threshold's flag is set, and no other
threshold fires. -/
theorem c3_warning_scan (now : Int) (agentId childId activityType : String)
    (warningMinutes? : Option (List Int)) (call : ApiCall)
    (st : EnforcerState) (a : Allowance)
    (hfetch :
      (fetchAllowance now childId activityType st.quotaCache call).1 = some a)
    (hban : a.is_banned = false) (hblock : a.is_activity_blocked = false)
    (hallow : a.allowed = true) (hpos : 0 < a.remaining_seconds) :
    (checkQuota true now agentId childId activityType warningMinutes? call
        st).1 =
      ((firstFire a.remaining_seconds (flagsOf st.warningStates childId)
          (sortDesc (warningMinutes?.getD [15, 5, 1]))).map
        (fun t => QuotaEvent.showWarning agentId childId
          ((a.remaining_seconds : ℚ) / 60) activityType
          (urgencyFor t))).toList ∧
    flagsOf (checkQuota true now agentId childId activityType warningMinutes?
        call st).2.1.warningStates childId =
      (match firstFire a.remaining_seconds (flagsOf st.warningStates childId)
          (sortDesc (warningMinutes?.getD [15, 5, 1])) with
       | none => flagsOf st.warningStates childId
       | some t => t :: flagsOf st.warningStates childId) ∧
    (checkQuota true now agentId childId activityType warningMinutes? call
        st).1.length ≤ 1 ∧
    (∀ t,
      firstFire a.remaining_seconds (flagsOf st.warningStates childId)
          (sortDesc (warningMinutes?.getD [15, 5, 1])) = some t →
      (a.remaining_seconds : ℚ) / 60 ≤ (t : ℚ) ∧
      (flagsOf st.warningStates childId).contains t = false ∧
      t ∈ sortDesc (warningMinutes?.getD [15, 5, 1]) ∧
      urgencyFor t =
        (if t ≤ 1 then "critical" else if t ≤ 5 then "high" else "normal")) := by
  have hq :
      checkQuota true now agentId childId activityType warningMinutes? call st
        = ((checkQuotaDecision agentId childId activityType
              (fetchAllowance now childId activityType st.quotaCache call).1
              warningMinutes? st.warningStates).1,
           { warningStates :=
               (checkQuotaDecision agentId childId activityType
                 (fetchAllowance now childId activityType st.quotaCache call).1
                 warningMinutes? st.warningStates).2,
             quotaCache :=
               (fetchAllowance now childId activityType st.quotaCache
                 call).2.1 },
           (fetchAllowance now childId activityType st.quotaCache call).2.2) :=
    rfl
  have hcond : (a.is_banned || a.is_activity_blocked) = false := by
    rw [hban, hblock]; rfl
  have hne : ¬ a.remaining_seconds = -1 := by omega
  have hnle : ¬ a.remaining_seconds ≤ 0 := by omega
  rw [hq, hfetch]
  simp only [checkQuotaDecision, hcond, hallow, Bool.not_true,
    Bool.false_eq_true, if_false, if_neg hne, if_neg hnle,
    warnLoop_eq_firstFire, flagsOf_ensureFlags]
  cases hff : firstFire a.remaining_seconds (flagsOf st.warningStates childId)
      (sortDesc (warningMinutes?.getD [15, 5, 1])) with
  | none =>
    refine ⟨rfl, ?_, by simp, ?_⟩
    · exact flagsOf_jset_self _ _ _
    · intro t ht; cases ht
  | some t =>
    obtain ⟨h1, h2, h3⟩ := firstFire_some hff
    refine ⟨rfl, ?_, by simp, ?_⟩
    · exact flagsOf_jset_self _ _ _
    · intro t' ht'
      obtain rfl : t = t' := by simpa using ht'
      exact ⟨(div60_le_iff _ _).mpr h1, h2, h3, by simp [urgencyFor]⟩

/-- C3 witness: with 240 seconds remaining, default thresholds and no
flags set, exactly the 15-minute threshold fires with urgency normal
and its flag is recorded. -/
theorem c3_warning_scan_witness :
    (checkQuota true 0 "agent1" "child1" "internet" none
        (Except.ok (some (allowRem 240))) emptyEnf).1 =
      [.showWarning "agent1" "child1" (((240 : Int) : ℚ) / 60) "internet"
        "normal"] ∧
    flagsOf (checkQuota true 0 "agent1" "child1" "internet" none
        (Except.ok (some (allowRem 240))) emptyEnf).2.1.warningStates
      "child1" = [15] := by
  have h := c3_warning_scan 0 "agent1" "child1" "internet" none
    (Except.ok (some (allowRem 240))) emptyEnf (allowRem 240)
    rfl rfl rfl rfl (by decide)
  constructor
  · rw [h.1]
    rfl
  · rw [h.2.1]
    rfl

/-! ## Claim C4 -/

/-- C4 counterexample: thresholds [15, 5, 1]; the authority reports 600
remaining seconds (10 minutes, below the 15-minute threshold: the
warning fires), then 1200 seconds (20 minutes, above the threshold),
then 600 seconds again (back below the threshold). The claim says the
15-minute warning fires again on the third check; the code emits no
event at all on the third check, because the warned15 flag is never
cleared when the remaining quota rises back above the threshold. -/
theorem c4_counterexample :
    (runChecks true "agent1" "child1" "internet" none
        [(0, Except.ok (some (allowRem 600))),
         (10000, Except.ok (some (allowRem 1200))),
         (20000, Except.ok (some (allowRem 600)))]
        emptyEnf).1 =
      [[.showWarning "agent1" "child1" (((600 : Int) : ℚ) / 60) "internet"
          "normal"],
       [], []] := by
  rfl

/-- C4 (amended): a warning flag, once set, persists across every
further checkQuota call (no call ever clears a flag; in particular a
rise of the authority-reported remaining quota above the threshold does
not clear it, so a later fall below the threshold cannot re-fire that
warning), and a warning is only ever emitted for a threshold whose flag
was unset, which is then set; flags are cleared only by
resetWarningState (daily reset), after which the child has no flags and
thresholds may fire again. -/
theorem c4_flag_persistence (hasClient : Bool) (now : Int)
    (agentId childId activityType : String)
    (warningMinutes? : Option (List Int)) (call : ApiCall)
    (st : EnforcerState) :
    (∀ c t, t ∈ flagsOf st.warningStates c →
      t ∈ flagsOf (checkQuota hasClient now agentId childId activityType
        warningMinutes? call st).2.1.warningStates c) ∧
    ((∀ ev ∈ (checkQuota hasClient now agentId childId activityType
        warningMinutes? call st).1, ev.isShowWarning = false) ∨
     (∃ t, (flagsOf st.warningStates childId).contains t = false ∧
       ∀ c, flagsOf (checkQuota hasClient now agentId childId activityType
           warningMinutes? call st).2.1.warningStates c =
         if c = childId then t :: flagsOf st.warningStates childId
         else flagsOf st.warningStates c)) ∧
    (∀ c, flagsOf (resetWarningState st c).warningStates c = []) := by
  have hreset : ∀ c, flagsOf (resetWarningState st c).warningStates c = [] := by
    intro c
    show (jget (jdel st.warningStates c) c).getD [] = []
    rw [jget_jdel_self]
    rfl
  cases hasClient with
  | false => exact ⟨fun c t h => h, Or.inl (fun ev hev => by cases hev), hreset⟩
  | true =>
    have hq :
        checkQuota true now agentId childId activityType warningMinutes? call
            st
          = ((checkQuotaDecision agentId childId activityType
                (fetchAllowance now childId activityType st.quotaCache call).1
                warningMinutes? st.warningStates).1,
             { warningStates :=
                 (checkQuotaDecision agentId childId activityType
                   (fetchAllowance now childId activityType st.quotaCache
                     call).1 warningMinutes? st.warningStates).2,
               quotaCache :=
                 (fetchAllowance now childId activityType st.quotaCache
                   call).2.1 },
             (fetchAllowance now childId activityType st.quotaCache
               call).2.2) :=
      rfl
    rw [hq]
    cases hfa : (fetchAllowance now childId activityType st.quotaCache call).1
      with
    | none =>
      simp only [checkQuotaDecision]
      exact ⟨fun c t h => h, Or.inl (fun ev hev => by cases hev), hreset⟩
    | some a =>
      simp only [checkQuotaDecision]
      split_ifs with h1 h2 h3 h4
      · refine ⟨fun c t h => h, Or.inl ?_, hreset⟩
        intro ev hev
        rw [List.mem_singleton] at hev
        subst hev
        rfl
      · refine ⟨fun c t h => h, Or.inl ?_, hreset⟩
        intro ev hev
        rw [List.mem_singleton] at hev
        subst hev
        rfl
      · exact ⟨fun c t h => h, Or.inl (fun ev hev => by cases hev), hreset⟩
      · refine ⟨fun c t h => h, Or.inl ?_, hreset⟩
        intro ev hev
        rw [List.mem_singleton] at hev
        subst hev
        rfl
      · rw [warnLoop_eq_firstFire, flagsOf_ensureFlags]
        cases hff : firstFire a.remaining_seconds
            (flagsOf st.warningStates childId)
            (sortDesc (warningMinutes?.getD [15, 5, 1])) with
        | none =>
          refine ⟨?_, Or.inl (fun ev hev => by cases hev), hreset⟩
          intro c t h
          rw [flagsOf_set_after_ensure]
          by_cases hc : c = childId
          · subst hc; rw [if_pos rfl]; exact h
          · rw [if_neg hc]; exact h
        | some t =>
          obtain ⟨hg1, hg2, hg3⟩ := firstFire_some hff
          refine ⟨?_, Or.inr ⟨t, hg2, ?_⟩, hreset⟩
          · intro c t' h
            rw [flagsOf_set_after_ensure]
            by_cases hc : c = childId
            · subst hc
              rw [if_pos rfl]
              exact List.mem_cons_of_mem t h
            · rw [if_neg hc]; exact h
          · intro c
            rw [flagsOf_set_after_ensure]

/-- C4 amended-theorem witness: the persistence theorem applied at a
state in which the 15-minute flag is already set for the child and the
authority again reports 600 remaining seconds. -/
theorem c4_flag_persistence_witness :
    (15 : Int) ∈ flagsOf (checkQuota true 0 "agent1" "child1" "internet"
        none (Except.ok (some (allowRem 600)))
        { warningStates := [("child1", [15])],
          quotaCache := [] }).2.1.warningStates "child1" ∧
    flagsOf (resetWarningState
        { warningStates := [("child1", [15])], quotaCache := [] }
        "child1").warningStates "child1" = [] := by
  have h := c4_flag_persistence true 0 "agent1" "child1" "internet" none
    (Except.ok (some (allowRem 600)))
    { warningStates := [("child1", [15])], quotaCache := [] }
  exact ⟨h.1 "child1" 15 (by decide), h.2.2 "child1"⟩

/-! ## Claim C5 -/

/-- C5: a periodic flush for a session with positive accumulated seconds
issues exactly one usage-logging request carrying exactly the
accumulated amount (with the quota-consuming log_usage flag), resets the
accumulator to zero whatever the authority call outcome, and a second
flush with no intervening recordActivity issues no request and no event:
zero further seconds are logged, so each accumulated increment is
flushed at most once. -/
theorem c5_flush_at_most_once (tr : TrackerState) (agentId childId : String)
    (s : Session)
    (hs : jget tr.activeSessions agentId = some s)
    (hacc : 0 < s.accumulatedSeconds) :
    ∀ call : ApiCall,
      (flushTick tr agentId childId true call).2.1 =
        [{ child_id := childId
           activity_type := "internet"
           duration_seconds := some s.accumulatedSeconds
           log_usage := true
           check_only := none }] ∧
      jget (flushTick tr agentId childId true call).1.activeSessions agentId =
        some { s with accumulatedSeconds := 0, logged := true } ∧
      (∀ (hasClient₂ : Bool) (call₂ : ApiCall),
        flushTick (flushTick tr agentId childId true call).1 agentId childId
            hasClient₂ call₂ =
          ((flushTick tr agentId childId true call).1, [], [])) := by
  intro call
  have hne : ¬ s.accumulatedSeconds = 0 := by omega
  have hstep :
      flushTick tr agentId childId true call =
        ({ tr with
             activeSessions :=
               jset tr.activeSessions agentId
                 { s with accumulatedSeconds := 0, logged := true } },
         (logUsageToAllow2 true childId s.accumulatedSeconds call).1,
         (logUsageToAllow2 true childId s.accumulatedSeconds call).2) := by
    simp only [flushTick, hs, if_neg hne]
  refine ⟨?_, ?_, ?_⟩
  · rw [hstep]
    cases call <;> rfl
  · rw [hstep]
    exact jget_jset_self _ _ _
  · intro hasClient₂ call₂
    rw [hstep]
    simp [flushTick, jget_jset_self]

/-- C5 witness: a session with 7 accumulated seconds, flushed while the
authority call fails, then flushed again. -/
theorem c5_flush_at_most_once_witness :
    (flushTick
        { activeSessions :=
            [("agent1",
              { childId := "child1"
                startTime := 0
                lastUpdate := 0
                browsers := ["chrome"]
                accumulatedSeconds := 7
                logged := false })]
          children := []
          logIntervals := ["agent1"]
          resetCheckOn := true }
        "agent1" "child1" true (Except.error ())).2.1 =
      [{ child_id := "child1"
         activity_type := "internet"
         duration_seconds := some 7
         log_usage := true
         check_only := none }] := by
  have h := c5_flush_at_most_once
    { activeSessions :=
        [("agent1",
          { childId := "child1"
            startTime := 0
            lastUpdate := 0
            browsers := ["chrome"]
            accumulatedSeconds := 7
            logged := false })]
      children := []
      logIntervals := ["agent1"]
      resetCheckOn := true }
    "agent1" "child1"
    { childId := "child1"
      startTime := 0
      lastUpdate := 0
      browsers := ["chrome"]
      accumulatedSeconds := 7
      logged := false }
    rfl (by decide) (Except.error ())
  exact h.1

/-! ## Claim C6 -/

/-- The agent ids listed by getChildSessions are the keys of the
matching session-map entries. -/
theorem getChildSessions_agents (tr : TrackerState) (now : Int) (c : String) :
    (getChildSessions tr now c).map ChildSessionView.agentId =
      (tr.activeSessions.filter (fun p => p.2.childId == c)).map Prod.fst := by
  unfold getChildSessions
  rw [List.map_map]
  rfl

/-- C6: calling recordActivity for an agent with an open session updates
that session in place: the set of open-session keys does not change (no
second session is ever opened for the agent), the agent's session gets
the new lastUpdate and the accumulated elapsed seconds, no
session-started event is emitted, and getChildSessions lists exactly one
entry per agent whose open session belongs to the child. -/
theorem c6_session_exclusivity (tr : TrackerState) (now : Int)
    (agentId childId : String) (browsers : List String) (s : Session)
    (hnd : (tr.activeSessions.map Prod.fst).Nodup)
    (hs : jget tr.activeSessions agentId = some s) :
    (recordActivity tr now agentId childId browsers).1.activeSessions.map
        Prod.fst = tr.activeSessions.map Prod.fst ∧
    jget (recordActivity tr now agentId childId browsers).1.activeSessions
        agentId =
      some { s with
        lastUpdate := now
        browsers := browsers
        accumulatedSeconds :=
          s.accumulatedSeconds + msToSec (now - s.lastUpdate) } ∧
    (∀ ev ∈ (recordActivity tr now agentId childId browsers).2,
      ev.isSessionStarted = false) ∧
    (∀ c a,
      a ∈ (getChildSessions tr now c).map ChildSessionView.agentId ↔
      ∃ s', jget tr.activeSessions a = some s' ∧ s'.childId = c) ∧
    (∀ c, ((getChildSessions tr now c).map ChildSessionView.agentId).Nodup) := by
  have hiss : (jget tr.activeSessions agentId).isSome = true := by
    rw [hs]; rfl
  have hrec :
      recordActivity tr now agentId childId browsers =
        ({ tr with
             activeSessions :=
               jset tr.activeSessions agentId
                 { s with
                     lastUpdate := now
                     browsers := browsers
                     accumulatedSeconds :=
                       s.accumulatedSeconds + msToSec (now - s.lastUpdate) }
             children :=
               (updateChildUsage now tr.children childId
                 (msToSec (now - s.lastUpdate))).1 },
         (updateChildUsage now tr.children childId
           (msToSec (now - s.lastUpdate))).2) := by
    simp only [recordActivity, hs]
  refine ⟨?_, ?_, ?_, ?_, ?_⟩
  · rw [hrec]
    exact jset_keys_of_jget_isSome _ hiss
  · rw [hrec]
    exact jget_jset_self _ _ _
  · rw [hrec]
    intro ev hev
    simp only [updateChildUsage, List.mem_singleton] at hev
    subst hev
    rfl
  · intro c a
    rw [getChildSessions_agents]
    constructor
    · intro hmem
      rw [List.mem_map] at hmem
      obtain ⟨p, hp, rfl⟩ := hmem
      rw [List.mem_filter] at hp
      refine ⟨p.2, ?_, by simpa using hp.2⟩
      rw [jget_eq_some_iff_mem hnd]
      exact hp.1
    · rintro ⟨s', hjg, hc⟩
      rw [jget_eq_some_iff_mem hnd] at hjg
      rw [List.mem_map]
      refine ⟨(a, s'), ?_, rfl⟩
      rw [List.mem_filter]
      exact ⟨hjg, by simpa using hc⟩
  · intro c
    rw [getChildSessions_agents]
    exact ((List.filter_sublist _).map Prod.fst).nodup hnd

/-- C6 witness: a one-session tracker receiving a second recordActivity
for the same agent. -/
theorem c6_session_exclusivity_witness :
    (recordActivity
        { activeSessions :=
            [("agent1",
              { childId := "child1"
                startTime := 0
                lastUpdate := 0
                browsers := ["chrome"]
                accumulatedSeconds := 0
                logged := false })]
          children := []
          logIntervals := ["agent1"]
          resetCheckOn := true }
        5000 "agent1" "child1"
        ["chrome"]).1.activeSessions.map Prod.fst = ["agent1"] ∧
    jget (recordActivity
        { activeSessions :=
            [("agent1",
              { childId := "child1"
                startTime := 0
                lastUpdate := 0
                browsers := ["chrome"]
                accumulatedSeconds := 0
                logged := false })]
          children := []
          logIntervals := ["agent1"]
          resetCheckOn := true }
        5000 "agent1" "child1" ["chrome"]).1.activeSessions "agent1" =
      some { childId := "child1"
             startTime := 0
             lastUpdate := 5000
             browsers := ["chrome"]
             accumulatedSeconds := 5
             logged := false } := by
  have h := c6_session_exclusivity
    { activeSessions :=
        [("agent1",
          { childId := "child1"
            startTime := 0
            lastUpdate := 0
            browsers := ["chrome"]
            accumulatedSeconds := 0
            logged := false })]
      children := []
      logIntervals := ["agent1"]
      resetCheckOn := true }
    5000 "agent1" "child1" ["chrome"]
    { childId := "child1"
      startTime := 0
      lastUpdate := 0
      browsers := ["chrome"]
      accumulatedSeconds := 0
      logged := false }
    (by simp) rfl
  exact ⟨h.1, h.2.1⟩

/-! ## Claim C7 -/

/-- C7 counterexample: with exactly youtube.com in the static table and
no custom rules or cache, classifying sub.sub.youtube.com does NOT reach
youtube.com: the single parent-domain step only reaches
sub.youtube.com, which misses, so the result is the other/0 default,
not the video category the claim promises. -/
theorem c7_counterexample :
    (classify (fun _ => none)
        { domainCategoryMap := [("youtube.com", "video")]
          customRules := []
          cache := [] }
        "sub.sub.youtube.com").1.category = "other" ∧
    (classify (fun _ => none)
        { domainCategoryMap := [("youtube.com", "video")]
          customRules := []
          cache := [] }
        "sub.sub.youtube.com").1.confidence = 0 ∧
    (classify (fun _ => none)
        { domainCategoryMap := [("youtube.com", "video")]
          customRules := []
          cache := [] }
        "sub.sub.youtube.com").1.category ≠ "video" := by
  refine ⟨rfl, rfl, by decide⟩

/-- C7 (amended): when a domain misses the cache, the custom rules and
the exact static table, classify strips the leftmost label exactly once
and repeats the static-table lookup against that immediate parent
domain, returning its category with confidence 1.0 on a hit; hence
sub.youtube.com (one label above a youtube.com table entry) matches,
while sub.sub.youtube.com does not (its one-step parent
sub.youtube.com is not in the table). -/
theorem c7_parent_walk (urlParse : String → Option String) (cl : Classifier)
    (d p cat : String)
    (hd : extractDomain urlParse d = d) (hne : d ≠ "")
    (hcache : jget cl.cache d = none)
    (hcustom : jget cl.customRules d = none)
    (hexact : jget cl.domainCategoryMap d = none)
    (hparent : getParentDomain d = some p)
    (hmatch : jget cl.domainCategoryMap p = some cat)
    (hcat : cat ≠ "") :
    (classify urlParse cl d).1 = createResult cat 1 := by
  simp only [classify, if_neg hne, hd, hcache, hcustom, matchDomain, hexact,
    hparent, hmatch, if_neg hcat, Option.getD_some]

/-- C7 witness: the parent-walk theorem applied to sub.youtube.com with
only youtube.com in the static table. -/
theorem c7_parent_walk_witness :
    (classify (fun _ => none)
        { domainCategoryMap := [("youtube.com", "video")]
          customRules := []
          cache := [] }
        "sub.youtube.com").1 = createResult "video" 1 := by
  exact c7_parent_walk (fun _ => none)
    { domainCategoryMap := [("youtube.com", "video")]
      customRules := []
      cache := [] }
    "sub.youtube.com" "youtube.com" "video"
    rfl (by decide) rfl rfl rfl rfl rfl (by decide)

/-! ## Claim C8 -/

/-- C8: a domain carrying a custom rule classifies to the custom rule's
category with confidence 1.0 even when the static table also lists the
domain; addCustomRule both stores the rule and deletes that domain's
cache entry, so the very next classify call returns the new rule; and
removeCustomRule deletes both the rule and the cache entry. -/
theorem c8_custom_precedence (urlParse : String → Option String)
    (cl : Classifier) (d cat : String)
    (hd : extractDomain urlParse d = d) (hne : d ≠ "") :
    (jget cl.cache d = none → jget cl.customRules d = some cat →
      (jget cl.domainCategoryMap d).isSome = true →
      (classify urlParse cl d).1 = createResult cat 1) ∧
    (jget (addCustomRule urlParse cl d cat).cache d = none ∧
     jget (addCustomRule urlParse cl d cat).customRules d = some cat ∧
     (classify urlParse (addCustomRule urlParse cl d cat) d).1 =
       createResult cat 1) ∧
    (jget (removeCustomRule urlParse cl d).cache d = none ∧
     jget (removeCustomRule urlParse cl d).customRules d = none) := by
  have hadd :
      addCustomRule urlParse cl d cat =
        { cl with
            customRules := jset cl.customRules d cat
            cache := jdel cl.cache d } := by
    simp only [addCustomRule, hd, if_neg hne]
  have hrem :
      removeCustomRule urlParse cl d =
        { cl with
            customRules := jdel cl.customRules d
            cache := jdel cl.cache d } := by
    simp only [removeCustomRule, hd, if_neg hne]
  refine ⟨?_, ?_, ?_⟩
  · intro hcache hcustom _
    simp only [classify, if_neg hne, hd, hcache, hcustom]
  · rw [hadd]
    refine ⟨jget_jdel_self _ _, jget_jset_self _ _ _, ?_⟩
    simp only [classify, if_neg hne, hd, jget_jdel_self, jget_jset_self]
  · rw [hrem]
    exact ⟨jget_jdel_self _ _, jget_jdel_self _ _⟩

/-- C8 witness: youtube.com present in the static table as video and in
the custom rules as education; the custom rule wins, and the mutation
paths invalidate the cache. -/
theorem c8_custom_precedence_witness :
    (classify (fun _ => none)
        { domainCategoryMap := [("youtube.com", "video")]
          customRules := [("youtube.com", "education")]
          cache := [] }
        "youtube.com").1 = createResult "education" 1 := by
  have h := c8_custom_precedence (fun _ => none)
    { domainCategoryMap := [("youtube.com", "video")]
      customRules := [("youtube.com", "education")]
      cache := [] }
    "youtube.com" "education" rfl (by decide)
  exact h.1 rfl rfl rfl

/-! ## Claim C9 -/

/-- C9 counterexample: a tracker holding one open session with 42
accumulated-but-unflushed seconds; cleanup issues no usage-logging
request and emits no session-ended event, it simply discards the
session, so the 42 seconds are silently lost, contradicting the claim
that cleanup performs a final flush and emits session-ended for every
open session. -/
theorem c9_counterexample :
    (cleanup
        { activeSessions :=
            [("agent1",
              { childId := "child1"
                startTime := 0
                lastUpdate := 60000
                browsers := ["chrome"]
                accumulatedSeconds := 42
                logged := false })]
          children := []
          logIntervals := ["agent1"]
          resetCheckOn := true }).2.1 = [] ∧
    (cleanup
        { activeSessions :=
            [("agent1",
              { childId := "child1"
                startTime := 0
                lastUpdate := 60000
                browsers := ["chrome"]
                accumulatedSeconds := 42
                logged := false })]
          children := []
          logIntervals := ["agent1"]
          resetCheckOn := true }).2.2 = [] ∧
    (cleanup
        { activeSessions :=
            [("agent1",
              { childId := "child1"
                startTime := 0
                lastUpdate := 60000
                browsers := ["chrome"]
                accumulatedSeconds := 42
                logged := false })]
          children := []
          logIntervals := ["agent1"]
          resetCheckOn := true }).1.activeSessions = [] :=
  ⟨rfl, rfl, rfl⟩

/-- C9 (amended): ProcessLevelDetector.stop on a running detector clears
its timer and emits a browser-stopped event with the computed duration
for every active browser; BrowserTimeTracker.cleanup clears all timers
and drops every open session WITHOUT a final flush and WITHOUT emitting
session-ended, so accumulated-but-unflushed seconds are discarded on
cleanup (only endSession closes a session with a final flush). -/
theorem c9_stop_and_cleanup (now : Int) (dst : DetectorState)
    (hrun : dst.isRunning = true) :
    ((ProcessLevelDetector.stop now dst).2 =
      dst.activeBrowsers.map
        (fun p => DetectorEvent.browserStopped p.2 (now - p.2.startTime)) ∧
     (ProcessLevelDetector.stop now dst).1.activeBrowsers = [] ∧
     (ProcessLevelDetector.stop now dst).1.isRunning = false ∧
     (ProcessLevelDetector.stop now dst).1.scanOn = false) ∧
    (∀ tr : TrackerState,
      (cleanup tr).2.1 = [] ∧ (cleanup tr).2.2 = [] ∧
      (cleanup tr).1.activeSessions = [] ∧
      (cleanup tr).1.logIntervals = [] ∧
      (cleanup tr).1.resetCheckOn = false) := by
  constructor
  · simp [ProcessLevelDetector.stop, hrun]
  · intro tr
    exact ⟨rfl, rfl, rfl, rfl, rfl⟩

/-- C9 amended-theorem witness: a running detector with one active
browser emits exactly its browser-stopped event on stop. -/
theorem c9_stop_and_cleanup_witness :
    (ProcessLevelDetector.stop 9000
        { isRunning := true
          scanOn := true
          activeBrowsers :=
            [(101,
              { name := "chrome"
                displayName := "Google Chrome"
                processName := "chrome.exe"
                executable := ""
                icon := "chrome"
                pid := 101
                startTime := 2000 })] }).2 =
      [DetectorEvent.browserStopped
        { name := "chrome"
          displayName := "Google Chrome"
          processName := "chrome.exe"
          executable := ""
          icon := "chrome"
          pid := 101
          startTime := 2000 } 7000] := by
  have h := c9_stop_and_cleanup 9000
    { isRunning := true
      scanOn := true
      activeBrowsers :=
        [(101,
          { name := "chrome"
            displayName := "Google Chrome"
            processName := "chrome.exe"
            executable := ""
            icon := "chrome"
            pid := 101
            startTime := 2000 })] }
    rfl
  rw [h.1.1]
  rfl

/-! ## Claim C10 -/

/-- C10: every request issued by the two quota-check paths
(QuotaEnforcer.fetchAllowance and BrowserTimeTracker.checkAllowance)
carries log_usage = false and check_only = true, so quota checks and
warnings never consume quota; every request issued by the usage-flush
path (BrowserTimeTracker.logUsageToAllow2, used by the periodic flush
and endSession) carries log_usage = true. These are the only three
checkActivity call sites. -/
theorem c10_check_only_frame :
    (∀ (now : Int) (childId activityType : String)
        (cache : List (String × CacheEntry)) (call : ApiCall),
      ((fetchAllowance now childId activityType cache call).2.2).all
        (fun r => r.log_usage == false && r.check_only == some true) =
        true) ∧
    (∀ (hasClient : Bool) (childId : String) (call : ApiCall),
      ((checkAllowance hasClient childId call).2).all
        (fun r => r.log_usage == false && r.check_only == some true) =
        true) ∧
    (∀ (hasClient : Bool) (childId : String) (d : Int) (call : ApiCall),
      ((logUsageToAllow2 hasClient childId d call).1).all
        (fun r => r.log_usage == true) = true) := by
  refine ⟨?_, ?_, ?_⟩
  · intro now childId activityType cache call
    simp only [fetchAllowance]
    cases hjg : jget cache (cacheKey childId activityType) with
    | some c =>
      dsimp only
      by_cases hlt : now - c.timestamp < cacheTTL
      · rw [if_pos hlt]
        rfl
      · rw [if_neg hlt]
        cases call <;> rfl
    | none => cases call <;> rfl
  · intro hasClient childId call
    cases hasClient <;> cases call <;> rfl
  · intro hasClient childId d call
    cases hasClient <;> cases call <;> rfl

end Allow2Web
